import Mathlib

/-!
Verification of the binary-option pricing engine of this repository
(the files src/models/pricing.py and src/models/greeks.py).

The Python engine is shallowly embedded over the real numbers:

* Python floats become real numbers; the IEEE arithmetic of the source is
  modelled by exact real arithmetic.
* The external library functions norm.cdf and norm.pdf (scipy) are modelled as
  explicit function parameters of the embedded definitions, instantiated at
  the mathematical standard normal CDF and PDF from Mathlib; passing them as
  parameters also lets us state that certain branches never consult them.
* The sentinel values float('inf') and float('-inf') returned by
  calculate_d1_d2 at or past expiry are modelled by the extended reals.
* The wall clock read by datetime.now() inside price is modelled by an
  explicit "now" argument (state passing), and Python's None-able arguments
  and None results become Option.
* Checked variants of the pricing functions (suffix _checked) flag every
  division of the source: a division whose denominator is zero yields none.
  They are used to reason about the division-by-zero behaviour of the source.
-/

namespace ToolPremodel

noncomputable section

open ProbabilityTheory

/-- Seconds in a Julian year, the constant SECONDS_PER_YEAR of pricing.py
(365.25 days). -/
def SECONDS_PER_YEAR : ℝ := 365.25 * 24 * 60 * 60

/-- The standard normal cumulative distribution function, modelling the
library function norm.cdf used by pricing.py. -/
def normCdf (x : ℝ) : ℝ := ProbabilityTheory.cdf (gaussianReal 0 1) x

/-- The standard normal probability density, modelling the library function
norm.pdf used by pricing.py. -/
def normPdf (x : ℝ) : ℝ := gaussianPDFReal 0 1 x

/-- The four market-state labels returned by classify_zone.  The source
returns the label as a string together with a formatted description; the
description is a display string (an f-string embedding the inputs) and is not
modelled. -/
inductive Zone where
  | linear_decay
  | lock_in
  | gamma_risk
  | transition
deriving DecidableEq

/-- The pricer object of pricing.py; its only state is the immutable
default_volatility set at construction. -/
structure BinaryOptionPricer where
  default_volatility : ℝ

/-- Result record of BinaryOptionPricer.price.  Timestamps are modelled as
real numbers.  The zone_description display string is not modelled. -/
structure PricingResult where
  timestamp : ℝ
  spot_price : ℝ
  strike_price : ℝ
  time_to_expiry_seconds : ℝ
  volatility : ℝ
  up_price : ℝ
  down_price : ℝ
  delta : ℝ
  gamma : ℝ
  theta : ℝ
  vega : ℝ
  zone : Zone

/-- The dict returned by BinaryOptionPricer.calculate_greeks. -/
structure Greeks where
  delta : ℝ
  gamma : ℝ
  theta : ℝ
  vega : ℝ

namespace BinaryOptionPricer

/-- Embeds BinaryOptionPricer._calculate_d1_d2.  At or past expiry the source
returns the pair (inf, inf) or (-inf, -inf) depending on moneyness; these
sentinels are modelled as the extended reals ⊤ and ⊥.  For sigma ≤ 0 the
source substitutes the epsilon 0.0001 before dividing. -/
def calculate_d1_d2 (S K T sigma r : ℝ) : EReal × EReal :=
  if T ≤ 0 then
    if S ≥ K then (⊤, ⊤) else (⊥, ⊥)
  else
    let sigma := if sigma ≤ 0 then 0.0001 else sigma
    let sqrt_T := Real.sqrt T
    let d1 := (Real.log (S / K) + (r + 0.5 * sigma ^ 2) * T) / (sigma * sqrt_T)
    let d2 := d1 - sigma * sqrt_T
    ((d1 : EReal), (d2 : EReal))

/-- Embeds BinaryOptionPricer.binary_call_price.  The argument cdf stands for
the library function norm.cdf; sigma = none models the Python default
argument sigma=None, which selects the pricer's default volatility. -/
def binary_call_price (p : BinaryOptionPricer) (cdf : ℝ → ℝ)
    (S K T_seconds : ℝ) (sigma : Option ℝ) (r : ℝ) : ℝ :=
  let sigma := sigma.getD p.default_volatility
  let T := T_seconds / SECONDS_PER_YEAR
  if T ≤ 0 then
    if S ≥ K then 1 else 0
  else
    let d2 := (calculate_d1_d2 S K T sigma r).2
    max 0 (min 1 (cdf d2.toReal))

/-- Embeds BinaryOptionPricer.binary_put_price: one minus the call price. -/
def binary_put_price (p : BinaryOptionPricer) (cdf : ℝ → ℝ)
    (S K T_seconds : ℝ) (sigma : Option ℝ) (r : ℝ) : ℝ :=
  1 - binary_call_price p cdf S K T_seconds sigma r

/-- Embeds BinaryOptionPricer.calculate_greeks.  The argument pdf stands for
the library function norm.pdf.  Note that the Greek formulas divide by the
raw sigma argument, not by the epsilon-substituted volatility used inside
calculate_d1_d2. -/
def calculate_greeks (p : BinaryOptionPricer) (pdf : ℝ → ℝ)
    (S K T_seconds : ℝ) (sigma : Option ℝ) (r : ℝ) : Greeks :=
  let sigma := sigma.getD p.default_volatility
  let T := T_seconds / SECONDS_PER_YEAR
  if T ≤ 0 then
    ⟨0, 0, 0, 0⟩
  else
    let dd := calculate_d1_d2 S K T sigma r
    let d1 := dd.1.toReal
    let d2 := dd.2.toReal
    let sqrt_T := Real.sqrt T
    let n_d2 := pdf d2
    let delta := n_d2 / (S * sigma * sqrt_T)
    let gamma := -n_d2 * d1 / (S ^ 2 * sigma ^ 2 * T)
    let theta_annual := n_d2 * d1 / (2 * T * sigma * sqrt_T)
    let theta_per_second := -theta_annual / SECONDS_PER_YEAR
    let vega := -n_d2 * d1 * sqrt_T / sigma
    ⟨delta, gamma, theta_per_second, vega⟩

/-- Embeds BinaryOptionPricer.classify_zone (label component only; the
description string returned alongside it is display output). -/
def classify_zone (T_seconds S K : ℝ) : Zone :=
  let distance_pct := |S - K| / K * 100
  if T_seconds > 180 then
    Zone.linear_decay
  else if T_seconds > 60 ∧ distance_pct > 0.5 then
    Zone.lock_in
  else if T_seconds ≤ 60 ∧ distance_pct ≤ 0.5 then
    Zone.gamma_risk
  else
    Zone.transition

/-- Embeds BinaryOptionPricer.price.  The wall clock read by datetime.now()
when the timestamp argument is omitted is modelled by the explicit argument
now; timestamp = none models the Python default timestamp=None. -/
def price (p : BinaryOptionPricer) (cdf pdf : ℝ → ℝ) (now : ℝ)
    (spot strike ttl_seconds : ℝ) (sigma : Option ℝ) (timestamp : Option ℝ) :
    PricingResult :=
  let sigma := sigma.getD p.default_volatility
  let timestamp := timestamp.getD now
  let up_price := binary_call_price p cdf spot strike ttl_seconds (some sigma) 0
  let down_price := binary_put_price p cdf spot strike ttl_seconds (some sigma) 0
  let greeks := calculate_greeks p pdf spot strike ttl_seconds (some sigma) 0
  let zone := classify_zone ttl_seconds spot strike
  ⟨timestamp, spot, strike, ttl_seconds, sigma, up_price, down_price,
    greeks.delta, greeks.gamma, greeks.theta, greeks.vega, zone⟩

/-- Embeds one iteration step of the Newton-Raphson loop inside
BinaryOptionPricer.implied_volatility; the loop bound max_iterations becomes
the fuel argument.  Mirrors the source order: the tolerance test on the price
difference first, then the small-vega abort, then the clamped update. -/
def newton_iterate (p : BinaryOptionPricer) (cdf pdf : ℝ → ℝ)
    (market_price S K T_seconds : ℝ) (is_call : Bool) (tolerance : ℝ) :
    ℕ → ℝ → Option ℝ
  | 0, _ => none
  | n + 1, sigma =>
    let price :=
      if is_call then binary_call_price p cdf S K T_seconds (some sigma) 0
      else binary_put_price p cdf S K T_seconds (some sigma) 0
    let greeks := calculate_greeks p pdf S K T_seconds (some sigma) 0
    let vega := greeks.vega
    let diff := price - market_price
    if |diff| < tolerance then some sigma
    else if |vega| < 1e-10 then none
    else
      newton_iterate p cdf pdf market_price S K T_seconds is_call tolerance n
        (max 0.01 (min 5.0 (sigma - diff / vega)))

/-- Embeds BinaryOptionPricer.implied_volatility: none models the Python
result None (non-convergence). -/
def implied_volatility (p : BinaryOptionPricer) (cdf pdf : ℝ → ℝ)
    (market_price S K T_seconds : ℝ) (is_call : Bool)
    (max_iterations : ℕ) (tolerance : ℝ) : Option ℝ :=
  if T_seconds ≤ 0 then none
  else
    newton_iterate p cdf pdf market_price S K T_seconds is_call tolerance
      max_iterations 0.5

end BinaryOptionPricer

/-- Complete Greeks record for both sides, the GreeksSnapshot dataclass of
greeks.py.  The optional higher-order fields vanna and charm are left none by
full_greeks, as in the source. -/
structure GreeksSnapshot where
  spot : ℝ
  strike : ℝ
  ttl_seconds : ℝ
  volatility : ℝ
  up_price : ℝ
  down_price : ℝ
  delta_up : ℝ
  delta_down : ℝ
  gamma_up : ℝ
  gamma_down : ℝ
  theta_up : ℝ
  theta_down : ℝ
  vega_up : ℝ
  vega_down : ℝ
  vanna : Option ℝ
  charm : Option ℝ

/-- The risk-profile dict returned by GreeksAnalyzer.risk_profile. -/
structure RiskProfile where
  zone : Zone
  moneyness : String
  distance_to_strike_pct : ℝ
  up_price : ℝ
  down_price : ℝ
  delta : ℝ
  dollar_delta : ℝ
  gamma : ℝ
  theta_per_second : ℝ
  theta_per_minute : ℝ
  vega : ℝ
  gamma_risk_score : ℝ
  recommendation : String

/-- The analyzer object of greeks.py; it holds a pricer instance. -/
structure GreeksAnalyzer where
  pricer : BinaryOptionPricer

namespace GreeksAnalyzer

/-- Embeds GreeksAnalyzer.full_greeks: prices and call-side Greeks from the
pricer, with the down-side Greeks constructed as the negations of the
up-side values. -/
def full_greeks (a : GreeksAnalyzer) (cdf pdf : ℝ → ℝ)
    (spot strike ttl_seconds : ℝ) (sigma : Option ℝ) : GreeksSnapshot :=
  let sigma := sigma.getD a.pricer.default_volatility
  let up_price := a.pricer.binary_call_price cdf spot strike ttl_seconds (some sigma) 0
  let down_price := a.pricer.binary_put_price cdf spot strike ttl_seconds (some sigma) 0
  let greeks_up := a.pricer.calculate_greeks pdf spot strike ttl_seconds (some sigma) 0
  ⟨spot, strike, ttl_seconds, sigma, up_price, down_price,
    greeks_up.delta, -greeks_up.delta,
    greeks_up.gamma, -greeks_up.gamma,
    greeks_up.theta, -greeks_up.theta,
    greeks_up.vega, -greeks_up.vega,
    none, none⟩

/-- Embeds GreeksAnalyzer._get_recommendation. -/
def get_recommendation (zone : Zone) (distance_pct : ℝ) (ttl_seconds : ℝ)
    (gamma_risk_score : ℝ) : String :=
  if gamma_risk_score > 70 then
    "HIGH RISK: Extreme gamma exposure. Avoid new positions."
  else if zone = Zone.lock_in then
    let direction := if distance_pct > 0 then "Up" else "Down"
    "LOCK-IN: " ++ direction ++ " likely to win. Low risk of reversal."
  else if zone = Zone.linear_decay then
    "NORMAL: Standard theta decay. Greeks behave predictably."
  else
    "TRANSITION: Monitor closely for zone changes."

/-- Embeds GreeksAnalyzer.risk_profile. -/
def risk_profile (a : GreeksAnalyzer) (cdf pdf : ℝ → ℝ)
    (spot strike ttl_seconds : ℝ) (sigma : Option ℝ) : RiskProfile :=
  let greeks := full_greeks a cdf pdf spot strike ttl_seconds sigma
  let zone := BinaryOptionPricer.classify_zone ttl_seconds spot strike
  let distance_pct := (spot - strike) / strike * 100
  let moneyness := if spot ≥ strike then "ITM" else "OTM"
  let dollar_delta := greeks.delta_up
  let theta_1min := greeks.theta_up * 60
  let time_factor := max 0 (1 - ttl_seconds / 900)
  let strike_factor := max 0 (1 - |distance_pct| / 1)
  let gamma_risk_score := time_factor * strike_factor * 100
  ⟨zone, moneyness, distance_pct, greeks.up_price, greeks.down_price,
    greeks.delta_up, dollar_delta, greeks.gamma_up, greeks.theta_up,
    theta_1min, greeks.vega_up, gamma_risk_score,
    get_recommendation zone distance_pct ttl_seconds gamma_risk_score⟩

end GreeksAnalyzer

/-- Division with an explicit zero-denominator check, used by the checked
variants below to flag exactly the divisions performed by the source. -/
def checkedDiv (a b : ℝ) : Option ℝ :=
  if b = 0 then none else some (a / b)

namespace BinaryOptionPricer

/-- Checked variant of calculate_d1_d2: none exactly when the source's
division would have a zero denominator.  At or past expiry the source
performs no division. -/
def calculate_d1_d2_checked (S K T sigma r : ℝ) : Option (EReal × EReal) :=
  if T ≤ 0 then
    some (if S ≥ K then (⊤, ⊤) else (⊥, ⊥))
  else
    let sigma := if sigma ≤ 0 then 0.0001 else sigma
    let sqrt_T := Real.sqrt T
    match checkedDiv (Real.log (S / K) + (r + 0.5 * sigma ^ 2) * T) (sigma * sqrt_T) with
    | none => none
    | some d1 => some ((d1 : EReal), ((d1 - sigma * sqrt_T : ℝ) : EReal))

/-- Checked variant of binary_call_price: none exactly when some division in
the call chain has a zero denominator. -/
def binary_call_price_checked (p : BinaryOptionPricer) (cdf : ℝ → ℝ)
    (S K T_seconds : ℝ) (sigma : Option ℝ) (r : ℝ) : Option ℝ :=
  let sigma := sigma.getD p.default_volatility
  let T := T_seconds / SECONDS_PER_YEAR
  if T ≤ 0 then
    some (if S ≥ K then 1 else 0)
  else
    match calculate_d1_d2_checked S K T sigma r with
    | none => none
    | some dd => some (max 0 (min 1 (cdf dd.2.toReal)))

/-- Checked variant of calculate_greeks: none exactly when some division in
the Greek formulas (which divide by the raw sigma, spot and time, not by the
epsilon-substituted volatility) or inside calculate_d1_d2 has a zero
denominator. -/
def calculate_greeks_checked (p : BinaryOptionPricer) (pdf : ℝ → ℝ)
    (S K T_seconds : ℝ) (sigma : Option ℝ) (r : ℝ) : Option Greeks :=
  let sigma := sigma.getD p.default_volatility
  let T := T_seconds / SECONDS_PER_YEAR
  if T ≤ 0 then
    some ⟨0, 0, 0, 0⟩
  else
    match calculate_d1_d2_checked S K T sigma r with
    | none => none
    | some dd =>
      let d1 := dd.1.toReal
      let d2 := dd.2.toReal
      let sqrt_T := Real.sqrt T
      let n_d2 := pdf d2
      match checkedDiv n_d2 (S * sigma * sqrt_T),
            checkedDiv (-n_d2 * d1) (S ^ 2 * sigma ^ 2 * T),
            checkedDiv (n_d2 * d1) (2 * T * sigma * sqrt_T),
            checkedDiv (-n_d2 * d1 * sqrt_T) sigma with
      | some delta, some gamma, some theta_annual, some vega =>
        some ⟨delta, gamma, -theta_annual / SECONDS_PER_YEAR, vega⟩
      | _, _, _, _ => none

end BinaryOptionPricer

/-- A shared concrete pricer instance (the source default volatility 0.60). -/
def pricer0 : BinaryOptionPricer := ⟨0.6⟩

namespace BinaryOptionPricer

lemma SECONDS_PER_YEAR_pos : 0 < SECONDS_PER_YEAR := by
  rw [SECONDS_PER_YEAR]; norm_num

lemma normCdf_mono : Monotone normCdf :=
  fun _ _ h => ProbabilityTheory.monotone_cdf (gaussianReal 0 1) h

lemma normPdf_pos (x : ℝ) : 0 < normPdf x :=
  gaussianPDFReal_pos 0 1 x one_ne_zero

/-- The call price is clamped into the unit interval in every branch. -/
lemma binary_call_price_mem_unit (p : BinaryOptionPricer) (cdf : ℝ → ℝ)
    (S K T_seconds : ℝ) (sigma : Option ℝ) (r : ℝ) :
    0 ≤ binary_call_price p cdf S K T_seconds sigma r ∧
      binary_call_price p cdf S K T_seconds sigma r ≤ 1 := by
  simp only [binary_call_price]
  split_ifs with h1 h2
  · norm_num
  · norm_num
  · exact ⟨le_max_left 0 _, max_le (by norm_num) (min_le_left _ _)⟩

/-- Explicit value of the second component of calculate_d1_d2 away from the
expiry and zero-volatility fallbacks. -/
lemma calculate_d1_d2_snd_of_pos (S K T sigma r : ℝ) (hT : 0 < T) (hσ : 0 < sigma) :
    (calculate_d1_d2 S K T sigma r).2 =
      (((Real.log (S / K) + (r + 0.5 * sigma ^ 2) * T) / (sigma * Real.sqrt T)
        - sigma * Real.sqrt T : ℝ) : EReal) := by
  simp only [calculate_d1_d2, if_neg (not_le.mpr hT), if_neg (not_le.mpr hσ)]

/-- C1: for every spot, strike, time to expiry and volatility all positive,
the binary call and put prices sum to one exactly (hence within 1e-9) and
both lie in the unit interval. -/
theorem claim_C1_call_put_parity (p : BinaryOptionPricer)
    (S K T_seconds sigma : ℝ)
    (hS : 0 < S) (hK : 0 < K) (hT : 0 < T_seconds) (hσ : 0 < sigma) :
    binary_call_price p normCdf S K T_seconds (some sigma) 0 +
        binary_put_price p normCdf S K T_seconds (some sigma) 0 = 1 ∧
      |binary_call_price p normCdf S K T_seconds (some sigma) 0 +
        binary_put_price p normCdf S K T_seconds (some sigma) 0 - 1| ≤ 1e-9 ∧
      0 ≤ binary_call_price p normCdf S K T_seconds (some sigma) 0 ∧
      binary_call_price p normCdf S K T_seconds (some sigma) 0 ≤ 1 ∧
      0 ≤ binary_put_price p normCdf S K T_seconds (some sigma) 0 ∧
      binary_put_price p normCdf S K T_seconds (some sigma) 0 ≤ 1 := by
  obtain ⟨hc0, hc1⟩ :=
    binary_call_price_mem_unit p normCdf S K T_seconds (some sigma) 0
  have hparity : binary_call_price p normCdf S K T_seconds (some sigma) 0 +
      binary_put_price p normCdf S K T_seconds (some sigma) 0 = 1 := by
    rw [binary_put_price]; ring
  refine ⟨hparity, ?_, hc0, hc1, ?_, ?_⟩
  · rw [hparity]; norm_num
  · rw [binary_put_price]; linarith
  · rw [binary_put_price]; linarith

theorem claim_C1_call_put_parity_witness :
    (0:ℝ) < 1 ∧ (0:ℝ) < 60 ∧ (0:ℝ) < 0.6 ∧
      (binary_call_price pricer0 normCdf 1 1 60 (some 0.6) 0 +
          binary_put_price pricer0 normCdf 1 1 60 (some 0.6) 0 = 1 ∧
        |binary_call_price pricer0 normCdf 1 1 60 (some 0.6) 0 +
          binary_put_price pricer0 normCdf 1 1 60 (some 0.6) 0 - 1| ≤ 1e-9 ∧
        0 ≤ binary_call_price pricer0 normCdf 1 1 60 (some 0.6) 0 ∧
        binary_call_price pricer0 normCdf 1 1 60 (some 0.6) 0 ≤ 1 ∧
        0 ≤ binary_put_price pricer0 normCdf 1 1 60 (some 0.6) 0 ∧
        binary_put_price pricer0 normCdf 1 1 60 (some 0.6) 0 ≤ 1) :=
  ⟨by norm_num, by norm_num, by norm_num,
    claim_C1_call_put_parity pricer0 1 1 60 0.6
      (by norm_num) (by norm_num) (by norm_num) (by norm_num)⟩

/-- C4: at or past expiry the call price is the moneyness indicator and the
put price is its complement, for every volatility and every choice of the
normal-distribution evaluator (the quantification over cdf shows that no
normal-distribution evaluation can influence this branch). -/
theorem claim_C4_expiry_settlement (cdf : ℝ → ℝ) (p : BinaryOptionPricer)
    (S K T_seconds : ℝ) (sigma : Option ℝ) (r : ℝ) (hT : T_seconds ≤ 0) :
    binary_call_price p cdf S K T_seconds sigma r = (if S ≥ K then 1 else 0) ∧
      binary_put_price p cdf S K T_seconds sigma r
        = 1 - (if S ≥ K then 1 else 0) := by
  have hT' : T_seconds / SECONDS_PER_YEAR ≤ 0 :=
    div_nonpos_iff.mpr (Or.inr ⟨hT, SECONDS_PER_YEAR_pos.le⟩)
  constructor
  · simp only [binary_call_price, if_pos hT']
  · simp only [binary_put_price, binary_call_price, if_pos hT']

theorem claim_C4_expiry_settlement_witness :
    (0:ℝ) ≤ 0 ∧
      (binary_call_price pricer0 normCdf 2 1 0 none 0 = (if (2:ℝ) ≥ 1 then 1 else 0) ∧
        binary_put_price pricer0 normCdf 2 1 0 none 0
          = 1 - (if (2:ℝ) ≥ 1 then 1 else 0)) :=
  ⟨le_refl 0, claim_C4_expiry_settlement normCdf pricer0 2 1 0 none 0 (le_refl 0)⟩

/-- C10: before expiry, with positive spot, strike and volatility, the
call-side delta produced by calculate_greeks is strictly positive. -/
theorem claim_C10_delta_pos (p : BinaryOptionPricer) (S K T_seconds sigma : ℝ)
    (hS : 0 < S) (hK : 0 < K) (hT : 0 < T_seconds) (hσ : 0 < sigma) :
    0 < (calculate_greeks p normPdf S K T_seconds (some sigma) 0).delta := by
  have hT' : 0 < T_seconds / SECONDS_PER_YEAR := div_pos hT SECONDS_PER_YEAR_pos
  have hs : 0 < Real.sqrt (T_seconds / SECONDS_PER_YEAR) := Real.sqrt_pos.mpr hT'
  simp only [calculate_greeks, Option.getD_some, if_neg (not_le.mpr hT')]
  exact div_pos (normPdf_pos _) (by positivity)

theorem claim_C10_delta_pos_witness :
    (0:ℝ) < 1 ∧ (0:ℝ) < 60 ∧ (0:ℝ) < 0.6 ∧
      0 < (calculate_greeks pricer0 normPdf 1 1 60 (some 0.6) 0).delta :=
  ⟨by norm_num, by norm_num, by norm_num,
    claim_C10_delta_pos pricer0 1 1 60 0.6
      (by norm_num) (by norm_num) (by norm_num) (by norm_num)⟩

/-- C8: holding strike, time to expiry and volatility fixed (all positive),
the binary call price is non-decreasing in the spot. -/
theorem claim_C8_call_monotone_in_spot (p : BinaryOptionPricer)
    (K T_seconds sigma S1 S2 : ℝ)
    (hK : 0 < K) (hT : 0 < T_seconds) (hσ : 0 < sigma)
    (hS1 : 0 < S1) (h12 : S1 ≤ S2) :
    binary_call_price p normCdf S1 K T_seconds (some sigma) 0 ≤
      binary_call_price p normCdf S2 K T_seconds (some sigma) 0 := by
  have hT' : 0 < T_seconds / SECONDS_PER_YEAR := div_pos hT SECONDS_PER_YEAR_pos
  have hs : 0 < Real.sqrt (T_seconds / SECONDS_PER_YEAR) := Real.sqrt_pos.mpr hT'
  simp only [binary_call_price, Option.getD_some, if_neg (not_le.mpr hT'),
    calculate_d1_d2_snd_of_pos _ _ _ _ _ hT' hσ, EReal.toReal_coe]
  refine max_le_max le_rfl (min_le_min le_rfl (normCdf_mono ?_))
  have hlog : Real.log (S1 / K) ≤ Real.log (S2 / K) :=
    Real.log_le_log (by positivity) (by gcongr)
  have hden : 0 < sigma * Real.sqrt (T_seconds / SECONDS_PER_YEAR) := by positivity
  gcongr

theorem claim_C8_call_monotone_in_spot_witness :
    (0:ℝ) < 1 ∧ (0:ℝ) < 60 ∧ (0:ℝ) < 0.6 ∧ (1:ℝ) ≤ 2 ∧
      binary_call_price pricer0 normCdf 1 1 60 (some 0.6) 0 ≤
        binary_call_price pricer0 normCdf 2 1 60 (some 0.6) 0 :=
  ⟨by norm_num, by norm_num, by norm_num, by norm_num,
    claim_C8_call_monotone_in_spot pricer0 1 60 0.6 1 2
      (by norm_num) (by norm_num) (by norm_num) (by norm_num) (by norm_num)⟩

/-- C5: classify_zone follows the four-branch first-match decision order on
time to expiry and percentage distance to strike, and in particular assigns
the four boundary examples of the specification (with strike 95000). -/
theorem claim_C5_zone_decision_order :
    (∀ T S K : ℝ,
      (T > 180 → classify_zone T S K = Zone.linear_decay) ∧
      (T ≤ 180 → T > 60 → |S - K| / K * 100 > 0.5 →
        classify_zone T S K = Zone.lock_in) ∧
      (T ≤ 180 → T ≤ 60 → |S - K| / K * 100 ≤ 0.5 →
        classify_zone T S K = Zone.gamma_risk) ∧
      (T ≤ 180 → ¬(T > 60 ∧ |S - K| / K * 100 > 0.5) →
        ¬(T ≤ 60 ∧ |S - K| / K * 100 ≤ 0.5) →
        classify_zone T S K = Zone.transition)) ∧
    classify_zone 181 95000 95000 = Zone.linear_decay ∧
    classify_zone 120 (95000 * 1.01) 95000 = Zone.lock_in ∧
    classify_zone 30 (95000 * 1.001) 95000 = Zone.gamma_risk ∧
    classify_zone 90 (95000 * 1.002) 95000 = Zone.transition := by
  have hgen : ∀ T S K : ℝ,
      (T > 180 → classify_zone T S K = Zone.linear_decay) ∧
      (T ≤ 180 → T > 60 → |S - K| / K * 100 > 0.5 →
        classify_zone T S K = Zone.lock_in) ∧
      (T ≤ 180 → T ≤ 60 → |S - K| / K * 100 ≤ 0.5 →
        classify_zone T S K = Zone.gamma_risk) ∧
      (T ≤ 180 → ¬(T > 60 ∧ |S - K| / K * 100 > 0.5) →
        ¬(T ≤ 60 ∧ |S - K| / K * 100 ≤ 0.5) →
        classify_zone T S K = Zone.transition) := by
    intro T S K
    refine ⟨fun h1 => ?_, fun h1 h2 h3 => ?_, fun h1 h2 h3 => ?_,
      fun h1 h2 h3 => ?_⟩
    · simp only [classify_zone]
      rw [if_pos h1]
    · simp only [classify_zone]
      rw [if_neg (not_lt.mpr h1), if_pos ⟨h2, h3⟩]
    · simp only [classify_zone]
      rw [if_neg (not_lt.mpr h1),
        if_neg (fun hh => absurd hh.1 (not_lt.mpr h2)), if_pos ⟨h2, h3⟩]
    · simp only [classify_zone]
      rw [if_neg (not_lt.mpr h1), if_neg h2, if_neg h3]
  refine ⟨hgen, ?_, ?_, ?_, ?_⟩
  · exact (hgen 181 95000 95000).1 (by norm_num)
  · refine (hgen 120 (95000 * 1.01) 95000).2.1 (by norm_num) (by norm_num) ?_
    have h1 : (95000 * 1.01 - 95000 : ℝ) = 950 := by norm_num
    rw [h1, abs_of_nonneg (by norm_num : (0:ℝ) ≤ 950)]
    norm_num
  · refine (hgen 30 (95000 * 1.001) 95000).2.2.1 (by norm_num) (by norm_num) ?_
    have h1 : (95000 * 1.001 - 95000 : ℝ) = 95 := by norm_num
    rw [h1, abs_of_nonneg (by norm_num : (0:ℝ) ≤ 95)]
    norm_num
  · have h1 : (95000 * 1.002 - 95000 : ℝ) = 190 := by norm_num
    refine (hgen 90 (95000 * 1.002) 95000).2.2.2 (by norm_num) ?_ ?_
    · rw [not_and_or]
      right
      rw [h1, abs_of_nonneg (by norm_num : (0:ℝ) ≤ 190)]
      norm_num
    · rw [not_and_or]
      left
      norm_num

theorem claim_C5_zone_decision_order_witness :
    (200:ℝ) > 180 ∧ classify_zone 200 1 1 = Zone.linear_decay :=
  ⟨by norm_num, (claim_C5_zone_decision_order.1 200 1 1).1 (by norm_num)⟩

/-- Soundness of the Newton-Raphson loop: whenever the loop returns a value,
the starting volatility bounds [0.01, 5] are preserved for the returned
value and the model price at the returned value matches the target within
the tolerance (the loop's own convergence criterion). -/
lemma newton_iterate_sound (p : BinaryOptionPricer) (cdf pdf : ℝ → ℝ)
    (market_price S K T_seconds : ℝ) (is_call : Bool) (tolerance : ℝ) :
    ∀ (n : ℕ) (sigma sigmaStar : ℝ), 0.01 ≤ sigma → sigma ≤ 5 →
      newton_iterate p cdf pdf market_price S K T_seconds is_call tolerance
          n sigma = some sigmaStar →
      0.01 ≤ sigmaStar ∧ sigmaStar ≤ 5 ∧
        |(if is_call then binary_call_price p cdf S K T_seconds (some sigmaStar) 0
          else binary_put_price p cdf S K T_seconds (some sigmaStar) 0)
          - market_price| < tolerance := by
  intro n
  induction n with
  | zero =>
    intro sigma sigmaStar _ _ h
    simp [newton_iterate] at h
  | succ n ih =>
    intro sigma sigmaStar hlo hhi h
    simp only [newton_iterate] at h
    by_cases hdiff :
        |(if is_call then binary_call_price p cdf S K T_seconds (some sigma) 0
          else binary_put_price p cdf S K T_seconds (some sigma) 0)
          - market_price| < tolerance
    · rw [if_pos hdiff] at h
      obtain rfl : sigma = sigmaStar := Option.some.inj h
      exact ⟨hlo, hhi, hdiff⟩
    · rw [if_neg hdiff] at h
      by_cases hvega :
          |(calculate_greeks p pdf S K T_seconds (some sigma) 0).vega| < 1e-10
      · rw [if_pos hvega] at h
        exact absurd h (by simp)
      · rw [if_neg hvega] at h
        refine ih _ sigmaStar (le_max_left _ _) ?_ h
        exact max_le (by norm_num) (le_trans (min_le_left _ _) (by norm_num))

/-- C3: implied_volatility reports non-convergence (none) for every
non-positive time to expiry, and whenever it returns a numeric volatility
that value lies in [0.01, 5] and reproduces the target price within the
tolerance, i.e. it never returns a number it has not converged on. -/
theorem claim_C3_iv_sound (p : BinaryOptionPricer)
    (market_price S K T_seconds : ℝ) (is_call : Bool)
    (max_iterations : ℕ) (tolerance : ℝ) :
    (T_seconds ≤ 0 →
      implied_volatility p normCdf normPdf market_price S K T_seconds is_call
        max_iterations tolerance = none) ∧
    ∀ sigmaStar : ℝ,
      implied_volatility p normCdf normPdf market_price S K T_seconds is_call
          max_iterations tolerance = some sigmaStar →
      0.01 ≤ sigmaStar ∧ sigmaStar ≤ 5 ∧
        |(if is_call then binary_call_price p normCdf S K T_seconds (some sigmaStar) 0
          else binary_put_price p normCdf S K T_seconds (some sigmaStar) 0)
          - market_price| < tolerance := by
  constructor
  · intro hT
    rw [implied_volatility, if_pos hT]
  · intro sigmaStar h
    rw [implied_volatility] at h
    by_cases hT : T_seconds ≤ 0
    · rw [if_pos hT] at h
      exact absurd h (by simp)
    · rw [if_neg hT] at h
      exact newton_iterate_sound p normCdf normPdf market_price S K T_seconds
        is_call tolerance max_iterations 0.5 sigmaStar
        (by norm_num) (by norm_num) h

theorem claim_C3_iv_sound_witness :
    (0:ℝ) ≤ 0 ∧
      implied_volatility pricer0 normCdf normPdf 0.3 1 1 0 true 100 0.000001
        = none :=
  ⟨le_refl 0,
    (claim_C3_iv_sound pricer0 0.3 1 1 0 true 100 0.000001).1 (le_refl 0)⟩

/-- Spot for the round-trip example: exp(-0.15) with strike 1, so that the
log-moneyness is exactly -0.15. -/
def ivSpot : ℝ := Real.exp (-0.15)

/-- Time to expiry for the round-trip example: exactly one Julian year in
seconds, so the year fraction is exactly 1. -/
def ivTtl : ℝ := 31557600

/-- Market price fed to the solver in the round-trip example: the model call
price at volatility 0.6. -/
def ivTarget : ℝ := binary_call_price pricer0 normCdf ivSpot 1 ivTtl (some 0.6) 0

lemma ivTtl_year : ivTtl / SECONDS_PER_YEAR = 1 := by
  rw [ivTtl, SECONDS_PER_YEAR]; norm_num

/-- The call price depends on the volatility only through the second
component of calculate_d1_d2. -/
lemma binary_call_price_congr_d2 (p : BinaryOptionPricer) (cdf : ℝ → ℝ)
    (S K T_seconds r sigma1 sigma2 : ℝ)
    (h : (calculate_d1_d2 S K (T_seconds / SECONDS_PER_YEAR) sigma1 r).2
      = (calculate_d1_d2 S K (T_seconds / SECONDS_PER_YEAR) sigma2 r).2) :
    binary_call_price p cdf S K T_seconds (some sigma1) r
      = binary_call_price p cdf S K T_seconds (some sigma2) r := by
  simp only [binary_call_price, Option.getD_some, h]

/-- At the round-trip example inputs, d2 is the same at volatility 0.5 and at
volatility 0.6 (both equal -0.55), so the two call prices coincide. -/
lemma iv_price_half_eq_target :
    binary_call_price pricer0 normCdf ivSpot 1 ivTtl (some 0.5) 0 = ivTarget := by
  rw [ivTarget]
  apply binary_call_price_congr_d2
  rw [ivTtl_year]
  have h5 : (calculate_d1_d2 ivSpot 1 1 0.5 0).2 = ((-0.55 : ℝ) : EReal) := by
    rw [calculate_d1_d2_snd_of_pos _ _ _ _ _ one_pos (by norm_num)]
    rw [Real.sqrt_one, ivSpot, div_one, Real.log_exp]
    norm_num
  have h6 : (calculate_d1_d2 ivSpot 1 1 0.6 0).2 = ((-0.55 : ℝ) : EReal) := by
    rw [calculate_d1_d2_snd_of_pos _ _ _ _ _ one_pos (by norm_num)]
    rw [Real.sqrt_one, ivSpot, div_one, Real.log_exp]
    norm_num
  rw [h5, h6]

/-- One unfolding step of the call-side Newton loop, with the source's let
bindings reduced. -/
lemma newton_iterate_succ_call (p : BinaryOptionPricer) (cdf pdf : ℝ → ℝ)
    (market_price S K T_seconds tolerance : ℝ) (n : ℕ) (sigma : ℝ) :
    newton_iterate p cdf pdf market_price S K T_seconds true tolerance (n + 1)
        sigma =
      if |binary_call_price p cdf S K T_seconds (some sigma) 0 - market_price|
          < tolerance then some sigma
      else if |(calculate_greeks p pdf S K T_seconds (some sigma) 0).vega|
          < 1e-10 then none
      else newton_iterate p cdf pdf market_price S K T_seconds true tolerance n
        (max 0.01 (min 5.0 (sigma -
          (binary_call_price p cdf S K T_seconds (some sigma) 0 - market_price)
            / (calculate_greeks p pdf S K T_seconds (some sigma) 0).vega))) :=
  rfl

/-- At the round-trip example inputs the solver's very first tolerance test
fires (the price difference is exactly zero), so it returns the initial
guess 0.5. -/
lemma iv_run_returns_initial_guess :
    implied_volatility pricer0 normCdf normPdf ivTarget ivSpot 1 ivTtl true 100
      0.000001 = some 0.5 := by
  rw [implied_volatility, if_neg (by rw [ivTtl]; norm_num : ¬ (ivTtl ≤ 0))]
  show newton_iterate pricer0 normCdf normPdf ivTarget ivSpot 1 ivTtl true
      0.000001 (99 + 1) 0.5 = some 0.5
  rw [newton_iterate_succ_call, iv_price_half_eq_target, sub_self, abs_zero,
    if_pos (by norm_num : (0:ℝ) < 0.000001)]

/-- C6 counterexample: at spot exp(-0.15), strike 1 and one year to expiry
(all positive and valid), feeding the model price at volatility 0.6 back
into implied_volatility returns the numeric value 0.5, which is not within
1e-4 of 0.6 — the solver's first tolerance check fires because the two
volatilities give the same d2. -/
theorem claim_C6_round_trip_cex :
    0 < ivSpot ∧ 0 < (1:ℝ) ∧ 0 < ivTtl ∧
      implied_volatility pricer0 normCdf normPdf ivTarget ivSpot 1 ivTtl true
        100 0.000001 = some 0.5 ∧
      ¬ (|0.5 - 0.6| ≤ (0.0001 : ℝ)) := by
  refine ⟨Real.exp_pos _, by norm_num, by rw [ivTtl]; norm_num,
    iv_run_returns_initial_guess, ?_⟩
  have h : (0.5 - 0.6 : ℝ) = -0.1 := by norm_num
  rw [h, abs_of_neg (by norm_num : (-0.1 : ℝ) < 0)]
  norm_num

/-- C6 (amended): for positive spot, strike and time to expiry, the
round-trip through implied_volatility returns either non-convergence or a
volatility in [0.01, 5] whose model price reproduces the target price within
the solver tolerance 1e-6; the returned volatility need not be within 1e-4
of the original 0.6. -/
theorem claim_C6_round_trip_amended (p : BinaryOptionPricer) (S K T_seconds : ℝ)
    (hS : 0 < S) (hK : 0 < K) (hT : 0 < T_seconds) (sigmaStar : ℝ)
    (h : implied_volatility p normCdf normPdf
        (binary_call_price p normCdf S K T_seconds (some 0.6) 0) S K T_seconds
        true 100 0.000001 = some sigmaStar) :
    0.01 ≤ sigmaStar ∧ sigmaStar ≤ 5 ∧
      |binary_call_price p normCdf S K T_seconds (some sigmaStar) 0
        - binary_call_price p normCdf S K T_seconds (some 0.6) 0| < 0.000001 := by
  rw [implied_volatility, if_neg (not_le.mpr hT)] at h
  have hres := newton_iterate_sound p normCdf normPdf
    (binary_call_price p normCdf S K T_seconds (some 0.6) 0) S K T_seconds true
    0.000001 100 0.5 sigmaStar (by norm_num) (by norm_num) h
  rw [if_pos (rfl : true = true)] at hres
  exact hres

theorem claim_C6_round_trip_amended_witness :
    0 < ivSpot ∧ 0 < (1:ℝ) ∧ 0 < ivTtl ∧
      (0.01 ≤ (0.5:ℝ) ∧ (0.5:ℝ) ≤ 5 ∧
        |binary_call_price pricer0 normCdf ivSpot 1 ivTtl (some 0.5) 0
          - binary_call_price pricer0 normCdf ivSpot 1 ivTtl (some 0.6) 0|
          < 0.000001) :=
  ⟨Real.exp_pos _, by norm_num, by rw [ivTtl]; norm_num,
    claim_C6_round_trip_amended pricer0 ivSpot 1 ivTtl (Real.exp_pos _)
      (by norm_num) (by rw [ivTtl]; norm_num) 0.5 iv_run_returns_initial_guess⟩

/-- C7 counterexample: two calls of price with identical arguments (spot 100,
strike 100, 60 seconds, volatility 0.6, timestamp omitted) made at different
wall-clock instants return different PricingResult values, because the
omitted timestamp defaults to the current time. -/
theorem claim_C7_determinism_cex :
    price pricer0 normCdf normPdf 0 100 100 60 (some 0.6) none ≠
      price pricer0 normCdf normPdf 1 100 100 60 (some 0.6) none := by
  intro h
  have h1 : (price pricer0 normCdf normPdf 0 100 100 60 (some 0.6) none).timestamp
      = 0 := rfl
  have h2 : (price pricer0 normCdf normPdf 1 100 100 60 (some 0.6) none).timestamp
      = 1 := rfl
  rw [h, h2] at h1
  norm_num at h1

/-- C7 (amended): every engine operation is a deterministic function of its
arguments and, for price, of the wall-clock instant recorded in the result:
two price calls with identical arguments agree on every field except the
timestamp, are fully equal whenever an explicit timestamp is supplied, and
risk_profile calls with identical arguments return equal summaries. -/
theorem claim_C7_determinism_amended (p : BinaryOptionPricer)
    (a : GreeksAnalyzer) (cdf pdf : ℝ → ℝ)
    (now1 now2 spot strike ttl_seconds : ℝ) (sigma : Option ℝ) (ts : ℝ) :
    ((price p cdf pdf now1 spot strike ttl_seconds sigma none).spot_price
        = (price p cdf pdf now2 spot strike ttl_seconds sigma none).spot_price ∧
      (price p cdf pdf now1 spot strike ttl_seconds sigma none).strike_price
        = (price p cdf pdf now2 spot strike ttl_seconds sigma none).strike_price ∧
      (price p cdf pdf now1 spot strike ttl_seconds sigma none).time_to_expiry_seconds
        = (price p cdf pdf now2 spot strike ttl_seconds sigma none).time_to_expiry_seconds ∧
      (price p cdf pdf now1 spot strike ttl_seconds sigma none).volatility
        = (price p cdf pdf now2 spot strike ttl_seconds sigma none).volatility ∧
      (price p cdf pdf now1 spot strike ttl_seconds sigma none).up_price
        = (price p cdf pdf now2 spot strike ttl_seconds sigma none).up_price ∧
      (price p cdf pdf now1 spot strike ttl_seconds sigma none).down_price
        = (price p cdf pdf now2 spot strike ttl_seconds sigma none).down_price ∧
      (price p cdf pdf now1 spot strike ttl_seconds sigma none).delta
        = (price p cdf pdf now2 spot strike ttl_seconds sigma none).delta ∧
      (price p cdf pdf now1 spot strike ttl_seconds sigma none).gamma
        = (price p cdf pdf now2 spot strike ttl_seconds sigma none).gamma ∧
      (price p cdf pdf now1 spot strike ttl_seconds sigma none).theta
        = (price p cdf pdf now2 spot strike ttl_seconds sigma none).theta ∧
      (price p cdf pdf now1 spot strike ttl_seconds sigma none).vega
        = (price p cdf pdf now2 spot strike ttl_seconds sigma none).vega ∧
      (price p cdf pdf now1 spot strike ttl_seconds sigma none).zone
        = (price p cdf pdf now2 spot strike ttl_seconds sigma none).zone) ∧
    price p cdf pdf now1 spot strike ttl_seconds sigma (some ts)
      = price p cdf pdf now2 spot strike ttl_seconds sigma (some ts) ∧
    GreeksAnalyzer.risk_profile a cdf pdf spot strike ttl_seconds sigma
      = GreeksAnalyzer.risk_profile a cdf pdf spot strike ttl_seconds sigma :=
  ⟨⟨rfl, rfl, rfl, rfl, rfl, rfl, rfl, rfl, rfl, rfl, rfl⟩, rfl, rfl⟩

/-- For positive time to expiry the checked calculate_d1_d2 never hits a zero
denominator: the epsilon-substituted volatility and the square root of the
year fraction are both positive. -/
lemma calculate_d1_d2_checked_of_pos (S K T sigma r : ℝ) (hT : 0 < T) :
    calculate_d1_d2_checked S K T sigma r
      = some (calculate_d1_d2 S K T sigma r) := by
  have hσ' : (0:ℝ) < if sigma ≤ 0 then 0.0001 else sigma := by
    split_ifs with h
    · norm_num
    · exact not_le.mp h
  have hs : 0 < Real.sqrt T := Real.sqrt_pos.mpr hT
  have hden : ((if sigma ≤ 0 then 0.0001 else sigma) * Real.sqrt T) ≠ 0 :=
    ne_of_gt (mul_pos hσ' hs)
  simp only [calculate_d1_d2_checked, calculate_d1_d2, if_neg (not_le.mpr hT),
    checkedDiv, if_neg hden]

/-- The checked call price always succeeds and computes the plain call
price: every division in the call-price path has a nonzero denominator. -/
lemma binary_call_price_checked_eq (p : BinaryOptionPricer) (cdf : ℝ → ℝ)
    (S K T_seconds : ℝ) (sigma : Option ℝ) (r : ℝ) :
    binary_call_price_checked p cdf S K T_seconds sigma r
      = some (binary_call_price p cdf S K T_seconds sigma r) := by
  by_cases hT : T_seconds / SECONDS_PER_YEAR ≤ 0
  · simp only [binary_call_price_checked, binary_call_price, if_pos hT]
  · simp only [binary_call_price_checked, binary_call_price, if_neg hT,
      calculate_d1_d2_checked_of_pos _ _ _ _ _ (not_le.mp hT)]

/-- Substituting the epsilon for a non-positive volatility is exactly what
calculate_d1_d2 does. -/
lemma calculate_d1_d2_sigma_clamp (S K T sigma r : ℝ) (hσ : sigma ≤ 0) :
    calculate_d1_d2 S K T sigma r = calculate_d1_d2 S K T 0.0001 r := by
  simp only [calculate_d1_d2, if_pos hσ,
    if_neg (by norm_num : ¬ ((0.0001:ℝ) ≤ 0))]

/-- C2 counterexample: with spot 1, strike 1, 60 seconds to expiry and
volatility exactly 0, the checked Greeks computation reports a division by
zero (none): the delta formula divides by the raw volatility argument, which
the epsilon fallback inside calculate_d1_d2 does not replace. -/
theorem claim_C2_sigma_zero_division_cex :
    calculate_greeks_checked pricer0 normPdf 1 1 60 (some 0) 0 = none := by
  have hT' : (0:ℝ) < 60 / SECONDS_PER_YEAR := by
    rw [SECONDS_PER_YEAR]; norm_num
  have hT : ¬ ((60:ℝ) / SECONDS_PER_YEAR ≤ 0) := not_le.mpr hT'
  simp only [calculate_greeks_checked, Option.getD_some, if_neg hT,
    calculate_d1_d2_checked_of_pos 1 1 _ 0 0 hT', checkedDiv, one_mul,
    mul_zero, zero_mul]
  norm_num

/-- C2 (amended): for positive spot, strike and time to expiry and sigma ≤ 0,
binary_call_price takes the documented epsilon-1e-4 fallback — every division
it performs has a nonzero denominator and the result equals the price at the
substituted volatility 1e-4; the Greek formulas of calculate_greeks, by
contrast, divide by the raw sigma, so at sigma = 0 they do divide by zero
(see the counterexample). -/
theorem claim_C2_sigma_fallback_amended (p : BinaryOptionPricer)
    (cdf : ℝ → ℝ) (S K T_seconds sigma r : ℝ)
    (hS : 0 < S) (hK : 0 < K) (hT : 0 < T_seconds) (hσ : sigma ≤ 0) :
    binary_call_price_checked p cdf S K T_seconds (some sigma) r
        = some (binary_call_price p cdf S K T_seconds (some sigma) r) ∧
      binary_call_price p cdf S K T_seconds (some sigma) r
        = binary_call_price p cdf S K T_seconds (some 0.0001) r := by
  refine ⟨binary_call_price_checked_eq p cdf S K T_seconds (some sigma) r, ?_⟩
  exact binary_call_price_congr_d2 p cdf S K T_seconds r sigma 0.0001
    (congrArg Prod.snd
      (calculate_d1_d2_sigma_clamp S K (T_seconds / SECONDS_PER_YEAR) sigma r hσ))

theorem claim_C2_sigma_fallback_amended_witness :
    (0:ℝ) < 1 ∧ (0:ℝ) < 60 ∧ (0:ℝ) ≤ 0 ∧
      (binary_call_price_checked pricer0 normCdf 1 1 60 (some 0) 0
          = some (binary_call_price pricer0 normCdf 1 1 60 (some 0) 0) ∧
        binary_call_price pricer0 normCdf 1 1 60 (some 0) 0
          = binary_call_price pricer0 normCdf 1 1 60 (some 0.0001) 0) :=
  ⟨by norm_num, by norm_num, le_refl 0,
    claim_C2_sigma_fallback_amended pricer0 normCdf 1 1 60 0 0
      (by norm_num) (by norm_num) (by norm_num) (le_refl 0)⟩

end BinaryOptionPricer

namespace GreeksAnalyzer

/-- C9: full_greeks always reports the down-side delta, gamma, vega and theta
as the exact negations of the corresponding up-side values. -/
theorem claim_C9_down_negation (a : GreeksAnalyzer) (cdf pdf : ℝ → ℝ)
    (spot strike ttl_seconds : ℝ) (sigma : Option ℝ) :
    (full_greeks a cdf pdf spot strike ttl_seconds sigma).delta_down
        = -(full_greeks a cdf pdf spot strike ttl_seconds sigma).delta_up ∧
      (full_greeks a cdf pdf spot strike ttl_seconds sigma).gamma_down
        = -(full_greeks a cdf pdf spot strike ttl_seconds sigma).gamma_up ∧
      (full_greeks a cdf pdf spot strike ttl_seconds sigma).vega_down
        = -(full_greeks a cdf pdf spot strike ttl_seconds sigma).vega_up ∧
      (full_greeks a cdf pdf spot strike ttl_seconds sigma).theta_down
        = -(full_greeks a cdf pdf spot strike ttl_seconds sigma).theta_up :=
  ⟨rfl, rfl, rfl, rfl⟩

end GreeksAnalyzer

end

end ToolPremodel
